import Mathlib

/-!
Verification development for the SolSeek vanity-address generator
(`src/main.rs`). Strings are modelled as `List Char`; Rust byte indexing
coincides with character indexing on the ASCII fragment (base-58 patterns
and base-58 addresses are ASCII), and Rust `to_lowercase` coincides with
mapping `Char.toLower`.
-/

/-- The alphabet string used by `validate_prefix` in `src/main.rs` line 84. -/
def base58_alphabet : String :=
  "123456789ABCDEFGHIJKLMNPQRSTUVWXYZabcdefghijkmnopqrstuvwxyz"

/-- The alphabet the program itself prints in its error messages
(`src/main.rs` lines 223, 230, 262): "Valid characters are: ...". -/
def usage_alphabet : String :=
  "123456789ABCDEFGHJKLMNPQRSTUVWXYZabcdefghijkmnopqrstuvwxyz"

/-- Embeds `validate_prefix` (`src/main.rs` lines 83-86): every character of
the argument must occur in `base58_alphabet`. -/
def validate_prefix (p : List Char) : Bool :=
  p.all (fun c => base58_alphabet.toList.contains c)

/-- Embeds the enum `MatchPosition` (`src/main.rs` lines 47-54). -/
inductive MatchPosition where
  | StartOnly
  | EndOnly
  | StartOrEnd
  | Anywhere
  | StartAndEnd
deriving Repr, DecidableEq

/-- Embeds the struct `PatternData` (`src/main.rs` lines 56-62). -/
structure PatternData where
  pattern : List Char
  length : Nat
  lower_pattern : List Char
  compare_pattern : List Char
deriving Repr, DecidableEq

/-- Embeds `PatternData::new` (`src/main.rs` lines 72-81). -/
def PatternData.new (pattern : List Char) (case_sensitive : Bool) : PatternData :=
  { pattern := pattern
    length := pattern.length
    lower_pattern := pattern.map Char.toLower
    compare_pattern := if case_sensitive then pattern else pattern.map Char.toLower }

/-- Embeds the struct `SearchConfig` (`src/main.rs` lines 64-70). -/
structure SearchConfig where
  start_pattern : Option PatternData
  end_pattern : Option PatternData
  match_position : MatchPosition
  case_sensitive : Bool
deriving Repr, DecidableEq

/-- The comparison form of an address: the expression
`if case_sensitive { address } else { &address.to_lowercase() }` appearing in
`check_address_with_config` (line 89) and `check_address_single_pattern`
(line 119). -/
def to_compare (s : List Char) (case_sensitive : Bool) : List Char :=
  if case_sensitive then s else s.map Char.toLower

/-- Embeds Rust `str::find`: index of the first (lowest-index) occurrence of
`p` in `a`, `some 0` for the empty pattern, `none` when absent. -/
def strFind (p : List Char) : List Char → Option Nat
  | [] => if p.isPrefixOf [] then some 0 else none
  | c :: t =>
    if p.isPrefixOf (c :: t) then some 0
    else (strFind p t).map (fun i => i + 1)

/-- Embeds `check_address_single_pattern` (`src/main.rs` lines 118-158).
The report pair (position description, matched substring) is returned with
both components as character lists. -/
def check_address_single_pattern (address : List Char) (pattern : PatternData)
    (match_position : MatchPosition) (case_sensitive : Bool) :
    Option (List Char × List Char) :=
  let compare_address := to_compare address case_sensitive
  let compare_pattern := pattern.compare_pattern
  match match_position with
  | MatchPosition.StartOnly =>
    if compare_pattern.isPrefixOf compare_address then
      some ("start".toList, address.take pattern.length)
    else
      none
  | MatchPosition.EndOnly =>
    if compare_pattern.isSuffixOf compare_address then
      some ("end".toList, address.drop (address.length - pattern.length))
    else
      none
  | MatchPosition.StartOrEnd =>
    if compare_pattern.isPrefixOf compare_address then
      some ("start".toList, address.take pattern.length)
    else if compare_pattern.isSuffixOf compare_address then
      some ("end".toList, address.drop (address.length - pattern.length))
    else
      none
  | MatchPosition.Anywhere =>
    match strFind compare_pattern compare_address with
    | some index =>
      some ("index ".toList ++ (Nat.repr index).toList,
            (address.drop index).take pattern.length)
    | none => none
  | MatchPosition.StartAndEnd => none

/-- Embeds `check_address_with_config` (`src/main.rs` lines 88-116). -/
def check_address_with_config (address : List Char) (config : SearchConfig) :
    Option (List Char × List Char) :=
  let compare_address := to_compare address config.case_sensitive
  match config.match_position with
  | MatchPosition.StartAndEnd =>
    match config.start_pattern, config.end_pattern with
    | some start_pattern, some end_pattern =>
      let start_matches := start_pattern.compare_pattern.isPrefixOf compare_address
      let end_matches := end_pattern.compare_pattern.isSuffixOf compare_address
      if start_matches && end_matches then
        let start_match := address.take start_pattern.length
        let end_match := address.drop (address.length - end_pattern.length)
        some ("start \x27".toList ++ start_match ++ "\x27 and end \x27".toList ++
                end_match ++ "\x27".toList,
              start_match ++ " ... ".toList ++ end_match)
      else
        none
    | _, _ => none
  | _ =>
    match config.start_pattern with
    | some pattern =>
      check_address_single_pattern address pattern config.match_position config.case_sensitive
    | none =>
      match config.end_pattern with
      | some pattern =>
        check_address_single_pattern address pattern config.match_position config.case_sensitive
      | none => none

/-- The built-in default pattern list `POSSIBLE_PATTERNS` (`src/main.rs` line 45). -/
def POSSIBLE_PATTERNS : List (List Char) := ["Seek".toList]

/-- Embeds the search-configuration determination in `main`
(`src/main.rs` lines 214-277): when `--start` or `--end` is supplied the
final match position is forced from which of the two is present and the
`--position` value is not consulted; otherwise positional patterns (or the
default) each use the `--position` value. Pattern validation failure is the
process exit, modelled as `Except.error`. -/
def determine_search_configs (start_pattern_str end_pattern_str : Option (List Char))
    (match_position : MatchPosition) (case_sensitive : Bool)
    (pattern_args : List (List Char)) : Except String (List SearchConfig) :=
  if start_pattern_str.isSome || end_pattern_str.isSome then
    let start_pattern := start_pattern_str.map (fun s => PatternData.new s case_sensitive)
    let end_pattern := end_pattern_str.map (fun s => PatternData.new s case_sensitive)
    if start_pattern.any (fun p => validate_prefix p.pattern == false) then
      Except.error "Error: Start pattern contains invalid Base58 characters"
    else if end_pattern.any (fun p => validate_prefix p.pattern == false) then
      Except.error "Error: End pattern contains invalid Base58 characters"
    else
      let final_match_position :=
        if start_pattern.isSome && end_pattern.isSome then MatchPosition.StartAndEnd
        else if start_pattern.isSome then MatchPosition.StartOnly
        else MatchPosition.EndOnly
      Except.ok [{ start_pattern := start_pattern
                   end_pattern := end_pattern
                   match_position := final_match_position
                   case_sensitive := case_sensitive }]
  else
    let possible_patterns :=
      if pattern_args.isEmpty == false then pattern_args else POSSIBLE_PATTERNS
    if possible_patterns.any (fun p => validate_prefix p == false) then
      Except.error "Error: Pattern contains invalid Base58 characters"
    else
      Except.ok (possible_patterns.map (fun pattern =>
        { start_pattern := some (PatternData.new pattern case_sensitive)
          end_pattern := none
          match_position := match_position
          case_sensitive := case_sensitive }))

/-! Panic-aware slicing. Rust string slicing panics when an index is out of
bounds and `usize` subtraction panics on underflow; the `checked_*` functions
return `Except.error` exactly in those situations, so an evaluation function
written with them returns `Except.ok` iff the Rust original cannot panic. -/

/-- Rust `usize` subtraction `a - b`: error on underflow. -/
def checked_sub (a b : Nat) : Except String Nat :=
  if b ≤ a then Except.ok (a - b)
  else Except.error "attempt to subtract with overflow"

/-- Rust slice `&s[..n]`: error when `n` exceeds the length. -/
def checked_take (l : List Char) (n : Nat) : Except String (List Char) :=
  if n ≤ l.length then Except.ok (l.take n)
  else Except.error "byte index out of bounds"

/-- Rust slice `&s[n..]`: error when `n` exceeds the length. -/
def checked_drop (l : List Char) (n : Nat) : Except String (List Char) :=
  if n ≤ l.length then Except.ok (l.drop n)
  else Except.error "byte index out of bounds"

/-- Rust slice `&s[a..b]`: error unless `a ≤ b ≤ length`. -/
def checked_slice (l : List Char) (a b : Nat) : Except String (List Char) :=
  if a ≤ b ∧ b ≤ l.length then Except.ok ((l.drop a).take (b - a))
  else Except.error "byte index out of bounds"

/-- `check_address_single_pattern` with every slice and subtraction taken
through the panic-aware operations, mirroring lines 118-158 step by step. -/
def check_address_single_pattern_checked (address : List Char) (pattern : PatternData)
    (match_position : MatchPosition) (case_sensitive : Bool) :
    Except String (Option (List Char × List Char)) :=
  let compare_address := to_compare address case_sensitive
  let compare_pattern := pattern.compare_pattern
  match match_position with
  | MatchPosition.StartOnly =>
    if compare_pattern.isPrefixOf compare_address then do
      let m ← checked_take address pattern.length
      pure (some ("start".toList, m))
    else
      pure none
  | MatchPosition.EndOnly =>
    if compare_pattern.isSuffixOf compare_address then do
      let i ← checked_sub address.length pattern.length
      let m ← checked_drop address i
      pure (some ("end".toList, m))
    else
      pure none
  | MatchPosition.StartOrEnd =>
    if compare_pattern.isPrefixOf compare_address then do
      let m ← checked_take address pattern.length
      pure (some ("start".toList, m))
    else if compare_pattern.isSuffixOf compare_address then do
      let i ← checked_sub address.length pattern.length
      let m ← checked_drop address i
      pure (some ("end".toList, m))
    else
      pure none
  | MatchPosition.Anywhere =>
    match strFind compare_pattern compare_address with
    | some index => do
      let m ← checked_slice address index (index + pattern.length)
      pure (some ("index ".toList ++ (Nat.repr index).toList, m))
    | none => pure none
  | MatchPosition.StartAndEnd => pure none

/-- `check_address_with_config` with every slice and subtraction taken through
the panic-aware operations, mirroring lines 88-116 step by step. -/
def check_address_with_config_checked (address : List Char) (config : SearchConfig) :
    Except String (Option (List Char × List Char)) :=
  let compare_address := to_compare address config.case_sensitive
  match config.match_position with
  | MatchPosition.StartAndEnd =>
    match config.start_pattern, config.end_pattern with
    | some start_pattern, some end_pattern =>
      let start_matches := start_pattern.compare_pattern.isPrefixOf compare_address
      let end_matches := end_pattern.compare_pattern.isSuffixOf compare_address
      if start_matches && end_matches then do
        let start_match ← checked_take address start_pattern.length
        let i ← checked_sub address.length end_pattern.length
        let end_match ← checked_drop address i
        pure (some ("start \x27".toList ++ start_match ++ "\x27 and end \x27".toList ++
                      end_match ++ "\x27".toList,
                    start_match ++ " ... ".toList ++ end_match))
      else
        pure none
    | _, _ => pure none
  | _ =>
    match config.start_pattern with
    | some pattern =>
      check_address_single_pattern_checked address pattern config.match_position
        config.case_sensitive
    | none =>
      match config.end_pattern with
      | some pattern =>
        check_address_single_pattern_checked address pattern config.match_position
          config.case_sensitive
      | none => pure none

/-! Interleaving model of the worker commit path (`src/main.rs` lines
351-393). Each worker whose freshly generated candidate matches executes, in
this order, the atomic shared-memory operations of the source: it loads
`found` at the top of the batch loop (line 354; if true it stops without
writing), then performs the unconditional `found.store(true)` of line 365
(the source has no compare-and-set), then takes the result mutex and assigns
the result slot (line 383). `result_writes` is a ghost counter of how many
times the slot was populated. -/

/-- One atomic shared-memory operation of a matching worker. -/
inductive WorkerStep where
  | load_found_or_stop
  | store_found
  | write_result
deriving Repr, DecidableEq

/-- The sequence of shared-memory operations a worker with a matching
candidate performs (lines 354, 365, 383). -/
def worker_match_path : List WorkerStep :=
  [WorkerStep.load_found_or_stop, WorkerStep.store_found, WorkerStep.write_result]

/-- The shared state of lines 281-282: the `found` flag, the result slot
(recorded as the id of the worker that wrote it), and a ghost count of how
many times the slot was populated. -/
structure SharedState where
  found : Bool
  result : Option Nat
  result_writes : Nat
deriving Repr, DecidableEq

/-- Shared state plus the remaining operations of each worker. -/
structure PoolState where
  shared : SharedState
  workers : List (List WorkerStep)
deriving Repr, DecidableEq

/-- Executes one atomic operation of worker `wid` (no-op if that worker is
finished). `load_found_or_stop` stops the worker when `found` is already
true; `store_found` is the unconditional store of line 365; `write_result`
populates the result slot under the mutex (line 383). -/
def exec_step (s : PoolState) (wid : Nat) : PoolState :=
  match s.workers.get? wid with
  | none => s
  | some [] => s
  | some (i :: rest) =>
    match i with
    | WorkerStep.load_found_or_stop =>
      if s.shared.found then { s with workers := s.workers.set wid [] }
      else { s with workers := s.workers.set wid rest }
    | WorkerStep.store_found =>
      { shared := { s.shared with found := true }, workers := s.workers.set wid rest }
    | WorkerStep.write_result =>
      { shared :=
          { s.shared with
            result := some wid
            result_writes := s.shared.result_writes + 1 }
        workers := s.workers.set wid rest }

/-- Runs a schedule: one interleaving of the atomic worker operations. -/
def run_schedule (sched : List Nat) (s : PoolState) : PoolState :=
  sched.foldl exec_step s

/-- Two workers, each holding a matching candidate, both still to run. -/
def two_matching_workers : PoolState :=
  { shared := { found := false, result := none, result_writes := 0 }
    workers := [worker_match_path, worker_match_path] }

/-- The fixed placeholder substituted when mnemonic derivation fails
(`src/main.rs` line 372). -/
def mnemonic_placeholder : String := "Unable to generate mnemonic"

/-- Embeds the mnemonic fallback of lines 370-373: the derived phrase on
success, the fixed placeholder on failure. -/
def mnemonic_or_placeholder (derived : Except String String) : String :=
  match derived with
  | Except.ok mnemonic => mnemonic
  | Except.error _ => mnemonic_placeholder

/-- Embeds the matched-pattern description of lines 376-381. -/
def pattern_desc (config : SearchConfig) : List Char :=
  match config.start_pattern, config.end_pattern with
  | some s, some e =>
    "start \x27".toList ++ s.pattern ++ "\x27 + end \x27".toList ++ e.pattern ++ "\x27".toList
  | some s, none => s.pattern
  | none, some e => e.pattern
  | none, none => "unknown".toList

/-- The six-field result record stored into `found_keypair`
(`src/main.rs` lines 383-390). -/
structure FoundRecord where
  matched_pattern : List Char
  position : List Char
  actual_match : List Char
  pubkey : List Char
  private_key : List Char
  mnemonic : String
deriving Repr, DecidableEq

/-- Embeds the match-commit path of a worker for one configuration (lines
363-393): when the address matches, the full result record is built; the
mnemonic field goes through the fallback of lines 370-373 and every other
field is produced regardless of the derivation outcome. -/
def worker_commit (pubkey : List Char) (config : SearchConfig)
    (private_key : List Char) (derived : Except String String) : Option FoundRecord :=
  match check_address_with_config pubkey config with
  | some (position, actual_match) =>
    some { matched_pattern := pattern_desc config
           position := position
           actual_match := actual_match
           pubkey := pubkey
           private_key := private_key
           mnemonic := mnemonic_or_placeholder derived }
  | none => none

/-! Helper lemmas. -/

theorem to_compare_length (s : List Char) (cs : Bool) :
    (to_compare s cs).length = s.length := by
  unfold to_compare
  split <;> simp

theorem new_compare_pattern_length (raw : List Char) (cs : Bool) :
    (PatternData.new raw cs).compare_pattern.length = raw.length := by
  show (if cs then raw else raw.map Char.toLower).length = raw.length
  split <;> simp

theorem isPrefixOf_length_le {p a : List Char} (h : p.isPrefixOf a = true) :
    p.length ≤ a.length := by
  simp only [ List.isPrefixOf_iff_prefix] at h
  exact h.length_le

theorem isSuffixOf_length_le {p a : List Char} (h : p.isSuffixOf a = true) :
    p.length ≤ a.length := by
  simp only [List.isSuffixOf_iff_suffix] at h
  exact h.length_le

theorem strFind_le_length {p a : List Char} {i : Nat} (h : strFind p a = some i) :
    i ≤ a.length := by
  induction a generalizing i with
  | nil =>
    unfold strFind at h
    split at h <;> simp_all
  | cons c t ih =>
    unfold strFind at h
    split at h
    · simp at h ⊢
      omega
    · cases hfind : strFind p t with
      | none => rw [hfind] at h; simp at h
      | some j =>
        rw [hfind] at h
        simp at h
        have := ih hfind
        simp
        omega

theorem strFind_occurrence {p a : List Char} {i : Nat} (h : strFind p a = some i) :
    p.isPrefixOf (a.drop i) = true := by
  induction a generalizing i with
  | nil =>
    unfold strFind at h
    split at h <;> simp_all
  | cons c t ih =>
    unfold strFind at h
    split at h
    · rename_i hpre
      simp at h
      subst h
      simpa using hpre
    · cases hfind : strFind p t with
      | none => rw [hfind] at h; simp at h
      | some j =>
        rw [hfind] at h
        simp at h
        subst h
        simpa using ih hfind

theorem strFind_eq_some_of {p a : List Char} {i : Nat}
    (hocc : p.isPrefixOf (a.drop i) = true)
    (hmin : ∀ j, j < i → p.isPrefixOf (a.drop j) = false) :
    strFind p a = some i := by
  induction a generalizing i with
  | nil =>
    cases i with
    | zero =>
      simp only [List.drop_nil] at hocc
      simp [strFind, hocc]
    | succ n =>
      have h0 := hmin 0 (Nat.succ_pos n)
      simp only [List.drop_nil] at hocc h0
      rw [hocc] at h0
      cases h0
  | cons c t ih =>
    cases i with
    | zero =>
      simp only [List.drop_zero] at hocc
      simp [strFind, hocc]
    | succ n =>
      have h0 := hmin 0 (Nat.succ_pos n)
      simp only [List.drop_zero] at h0
      simp only [List.drop_succ_cons] at hocc
      have hmin' : ∀ j, j < n → p.isPrefixOf (t.drop j) = false := by
        intro j hj
        have := hmin (j + 1) (by omega)
        simpa using this
      simp [strFind, h0, ih hocc hmin']

theorem strFind_nil_pattern (a : List Char) : strFind [] a = some 0 := by
  cases a <;> simp [strFind, List.isPrefixOf]

theorem new_length (raw : List Char) (cs : Bool) :
    (PatternData.new raw cs).length = raw.length := rfl

theorem new_pattern (raw : List Char) (cs : Bool) :
    (PatternData.new raw cs).pattern = raw := rfl

theorem new_prefix_le {address raw : List Char} {cs : Bool}
    (h : (PatternData.new raw cs).compare_pattern.isPrefixOf (to_compare address cs) = true) :
    raw.length ≤ address.length := by
  have hl := isPrefixOf_length_le h
  rwa [new_compare_pattern_length, to_compare_length] at hl

theorem new_suffix_le {address raw : List Char} {cs : Bool}
    (h : (PatternData.new raw cs).compare_pattern.isSuffixOf (to_compare address cs) = true) :
    raw.length ≤ address.length := by
  have hl := isSuffixOf_length_le h
  rwa [new_compare_pattern_length, to_compare_length] at hl

@[simp] theorem except_bind_ok {α β : Type} (a : α) (f : α → Except String β) :
    (Except.ok a >>= f : Except String β) = f a := rfl

@[simp] theorem except_pure {α : Type} (a : α) :
    (pure a : Except String α) = Except.ok a := rfl

/-- The checked single-pattern evaluation never reaches an out-of-bounds
slice: it returns `Except.ok` of the plain evaluation, for any pattern built
by `PatternData.new`. -/
theorem single_checked_ok (address raw : List Char) (pos : MatchPosition) (cs : Bool) :
    check_address_single_pattern_checked address (PatternData.new raw cs) pos cs =
      Except.ok (check_address_single_pattern address (PatternData.new raw cs) pos cs) := by
  cases pos with
  | StartOnly =>
    by_cases h : (PatternData.new raw cs).compare_pattern.isPrefixOf (to_compare address cs) = true
    · have hle := new_prefix_le h
      simp [check_address_single_pattern_checked, check_address_single_pattern, h,
            new_length, checked_take, hle, except_bind_ok]
    · simp [check_address_single_pattern_checked, check_address_single_pattern, h]
  | EndOnly =>
    by_cases h : (PatternData.new raw cs).compare_pattern.isSuffixOf (to_compare address cs) = true
    · have hle := new_suffix_le h
      simp [check_address_single_pattern_checked, check_address_single_pattern, h,
            new_length, checked_sub, checked_drop, hle, Nat.sub_le, except_bind_ok]
    · simp [check_address_single_pattern_checked, check_address_single_pattern, h]
  | StartOrEnd =>
    by_cases h : (PatternData.new raw cs).compare_pattern.isPrefixOf (to_compare address cs) = true
    · have hle := new_prefix_le h
      simp [check_address_single_pattern_checked, check_address_single_pattern, h,
            new_length, checked_take, hle, except_bind_ok]
    · by_cases h2 : (PatternData.new raw cs).compare_pattern.isSuffixOf (to_compare address cs) = true
      · have hle := new_suffix_le h2
        simp [check_address_single_pattern_checked, check_address_single_pattern, h, h2,
              new_length, checked_sub, checked_drop, hle, Nat.sub_le, except_bind_ok]
      · simp [check_address_single_pattern_checked, check_address_single_pattern, h, h2]
  | Anywhere =>
    cases hfind : strFind (PatternData.new raw cs).compare_pattern (to_compare address cs) with
    | none =>
      simp [check_address_single_pattern_checked, check_address_single_pattern, hfind]
    | some i =>
      have h1 := isPrefixOf_length_le (strFind_occurrence hfind)
      rw [new_compare_pattern_length, List.length_drop, to_compare_length] at h1
      have h2 := strFind_le_length hfind
      rw [to_compare_length] at h2
      have hub : i + raw.length ≤ address.length := by omega
      have hlb : i ≤ i + raw.length := Nat.le_add_right i raw.length
      simp [check_address_single_pattern_checked, check_address_single_pattern, hfind,
            new_length, checked_slice, hub, hlb, Nat.add_sub_cancel_left, except_bind_ok]
  | StartAndEnd =>
    simp [check_address_single_pattern_checked, check_address_single_pattern]

/-- The checked configuration-level evaluation never reaches an out-of-bounds
slice or an underflowing subtraction: it returns `Except.ok` of the plain
evaluation, for any configuration whose patterns are built by
`PatternData.new` (as every configuration in the program is). -/
theorem config_checked_ok (address : List Char) (sr er : Option (List Char))
    (pos : MatchPosition) (cs : Bool) :
    check_address_with_config_checked address
      { start_pattern := sr.map (fun r => PatternData.new r cs)
        end_pattern := er.map (fun r => PatternData.new r cs)
        match_position := pos
        case_sensitive := cs } =
    Except.ok (check_address_with_config address
      { start_pattern := sr.map (fun r => PatternData.new r cs)
        end_pattern := er.map (fun r => PatternData.new r cs)
        match_position := pos
        case_sensitive := cs }) := by
  cases pos with
  | StartAndEnd =>
    cases sr with
    | none =>
      cases er <;>
        simp [check_address_with_config_checked, check_address_with_config]
    | some s =>
      cases er with
      | none =>
        simp [check_address_with_config_checked, check_address_with_config]
      | some e =>
        by_cases hs : (PatternData.new s cs).compare_pattern.isPrefixOf (to_compare address cs) = true
        · by_cases he : (PatternData.new e cs).compare_pattern.isSuffixOf (to_compare address cs) = true
          · have hsle := new_prefix_le hs
            have hele := new_suffix_le he
            simp [check_address_with_config_checked, check_address_with_config, hs, he,
                  new_length, checked_take, checked_sub, checked_drop, hsle, hele,
                  Nat.sub_le, except_bind_ok]
          · simp [check_address_with_config_checked, check_address_with_config, hs, he]
        · simp [check_address_with_config_checked, check_address_with_config, hs]
  | StartOnly =>
    cases sr with
    | some s =>
      simpa [check_address_with_config_checked, check_address_with_config] using
        single_checked_ok address s MatchPosition.StartOnly cs
    | none =>
      cases er with
      | some e =>
        simpa [check_address_with_config_checked, check_address_with_config] using
          single_checked_ok address e MatchPosition.StartOnly cs
      | none =>
        simp [check_address_with_config_checked, check_address_with_config]
  | EndOnly =>
    cases sr with
    | some s =>
      simpa [check_address_with_config_checked, check_address_with_config] using
        single_checked_ok address s MatchPosition.EndOnly cs
    | none =>
      cases er with
      | some e =>
        simpa [check_address_with_config_checked, check_address_with_config] using
          single_checked_ok address e MatchPosition.EndOnly cs
      | none =>
        simp [check_address_with_config_checked, check_address_with_config]
  | StartOrEnd =>
    cases sr with
    | some s =>
      simpa [check_address_with_config_checked, check_address_with_config] using
        single_checked_ok address s MatchPosition.StartOrEnd cs
    | none =>
      cases er with
      | some e =>
        simpa [check_address_with_config_checked, check_address_with_config] using
          single_checked_ok address e MatchPosition.StartOrEnd cs
      | none =>
        simp [check_address_with_config_checked, check_address_with_config]
  | Anywhere =>
    cases sr with
    | some s =>
      simpa [check_address_with_config_checked, check_address_with_config] using
        single_checked_ok address s MatchPosition.Anywhere cs
    | none =>
      cases er with
      | some e =>
        simpa [check_address_with_config_checked, check_address_with_config] using
          single_checked_ok address e MatchPosition.Anywhere cs
      | none =>
        simp [check_address_with_config_checked, check_address_with_config]

/-- C1 -- The claim says validation fails for every string containing a
character outside the base-58 alphabet (digits 1-9, uppercase except I and O,
lowercase except l). The check string of the code at line 84 contains the letter I,
so `validate_prefix` accepts the pattern "I" and the search starts, while the
alphabet the program itself prints as valid (lines 223/230/262) omits I: the
code contradicts its own usage text. -/
theorem C1_validate_accepts_capital_I :
    validate_prefix ['I'] = true ∧
    usage_alphabet.toList.contains 'I' = false ∧
    determine_search_configs (some ['I']) none MatchPosition.StartOrEnd true [] =
      Except.ok [{ start_pattern := some (PatternData.new ['I'] true)
                   end_pattern := none
                   match_position := MatchPosition.StartOnly
                   case_sensitive := true }] := by
  refine ⟨by decide, by decide, ?_⟩
  rfl

/-- C2 -- The claim says the found flag is transitioned by an atomic
compare-and-set, only the single winning worker writes the result record, and
once found is true no worker overwrites the result. The source instead sets
the flag with an unconditional `store` (line 365) before taking the result
mutex (line 383), so in the interleaving where both workers pass the
found-check before either stores, both populate the slot: after the prefix
`[0, 1, 0, 0]` worker 0 has committed (found is true and the result holds
worker 0), yet the full schedule ends with two writes to the slot and worker
1 overwriting the record of worker 0. -/
theorem C2_result_slot_not_single_writer :
    (run_schedule [0, 1, 0, 0] two_matching_workers).shared.found = true ∧
    (run_schedule [0, 1, 0, 0] two_matching_workers).shared.result = some 0 ∧
    (run_schedule [0, 1, 0, 0, 1, 1] two_matching_workers).shared.result_writes = 2 ∧
    (run_schedule [0, 1, 0, 0, 1, 1] two_matching_workers).shared.result = some 1 :=
  ⟨rfl, rfl, rfl, rfl⟩

/-- C3 (counterexample) -- The claim says that whenever
`start.length + end.length > address.length` the StartAndEnd evaluation
returns no-match. For address "aba" with start "ab" and end "ba" the lengths
overlap (2 + 2 > 3) yet `check_address_with_config` reports a match: the
source has no combined-length bounds check (lines 92-109). -/
theorem C3_overlap_counterexample :
    ("ab".toList.length + "ba".toList.length > "aba".toList.length) ∧
    check_address_with_config "aba".toList
      { start_pattern := some (PatternData.new "ab".toList true)
        end_pattern := some (PatternData.new "ba".toList true)
        match_position := MatchPosition.StartAndEnd
        case_sensitive := true } ≠ none := by
  decide

/-- C3 -- Amended: under StartAndEnd with both specs present, the code
performs no combined-length bounds check; whenever the comparison address
both starts with the start pattern and ends with the end pattern (including
overlapping characters) the evaluation returns a match, and every slice taken
stays within the address bounds (the checked evaluation returns `Except.ok`).
-/
theorem C3_overlap_still_matches (address s e : List Char) (cs : Bool)
    (hs : (PatternData.new s cs).compare_pattern.isPrefixOf (to_compare address cs) = true)
    (he : (PatternData.new e cs).compare_pattern.isSuffixOf (to_compare address cs) = true) :
    (check_address_with_config address
      { start_pattern := some (PatternData.new s cs)
        end_pattern := some (PatternData.new e cs)
        match_position := MatchPosition.StartAndEnd
        case_sensitive := cs }).isSome = true ∧
    check_address_with_config_checked address
      { start_pattern := some (PatternData.new s cs)
        end_pattern := some (PatternData.new e cs)
        match_position := MatchPosition.StartAndEnd
        case_sensitive := cs } =
      Except.ok (check_address_with_config address
        { start_pattern := some (PatternData.new s cs)
          end_pattern := some (PatternData.new e cs)
          match_position := MatchPosition.StartAndEnd
          case_sensitive := cs }) := by
  constructor
  · simp [check_address_with_config, hs, he]
  · simpa using config_checked_ok address (some s) (some e) MatchPosition.StartAndEnd cs

/-- Witness for C3_overlap_still_matches at address "aba", start "ab",
end "ba". -/
theorem C3_overlap_still_matches_witness :
    (check_address_with_config "aba".toList
      { start_pattern := some (PatternData.new "ab".toList true)
        end_pattern := some (PatternData.new "ba".toList true)
        match_position := MatchPosition.StartAndEnd
        case_sensitive := true }).isSome = true ∧
    check_address_with_config_checked "aba".toList
      { start_pattern := some (PatternData.new "ab".toList true)
        end_pattern := some (PatternData.new "ba".toList true)
        match_position := MatchPosition.StartAndEnd
        case_sensitive := true } =
      Except.ok (check_address_with_config "aba".toList
        { start_pattern := some (PatternData.new "ab".toList true)
          end_pattern := some (PatternData.new "ba".toList true)
          match_position := MatchPosition.StartAndEnd
          case_sensitive := true }) :=
  C3_overlap_still_matches "aba".toList "ab".toList "ba".toList true
    (by decide) (by decide)

/-- C4 (counterexample) -- The claim says that when exactly one of `--start`
and `--end` is supplied the evaluation uses the `--position` policy. With
`--start "ab"` and `--position anywhere` the configuration built by `main`
(lines 235-241) carries `StartOnly`, not `Anywhere`: the `--position` value
is discarded. -/
theorem C4_position_ignored_counterexample :
    determine_search_configs (some "ab".toList) none MatchPosition.Anywhere true [] =
      Except.ok [{ start_pattern := some (PatternData.new "ab".toList true)
                   end_pattern := none
                   match_position := MatchPosition.StartOnly
                   case_sensitive := true }] ∧
    MatchPosition.StartOnly ≠ MatchPosition.Anywhere := by
  exact ⟨rfl, by decide⟩

/-- C4 -- Amended: the `--position` policy is used only when neither
`--start` nor `--end` is given (each positional pattern is evaluated with
it); when exactly one of the two is given the match position is forced to
StartOnly (start) or EndOnly (end) regardless of `--position`. -/
theorem C4_position_policy (pos : MatchPosition) (cs : Bool)
    (args : List (List Char)) (s e : List Char)
    (hargs : args.all (fun p => validate_prefix p) = true)
    (hne : args.isEmpty = false)
    (hs : validate_prefix s = true)
    (he : validate_prefix e = true) :
    determine_search_configs none none pos cs args =
      Except.ok (args.map (fun pattern =>
        { start_pattern := some (PatternData.new pattern cs)
          end_pattern := none
          match_position := pos
          case_sensitive := cs })) ∧
    determine_search_configs (some s) none pos cs args =
      Except.ok [{ start_pattern := some (PatternData.new s cs)
                   end_pattern := none
                   match_position := MatchPosition.StartOnly
                   case_sensitive := cs }] ∧
    determine_search_configs none (some e) pos cs args =
      Except.ok [{ start_pattern := none
                   end_pattern := some (PatternData.new e cs)
                   match_position := MatchPosition.EndOnly
                   case_sensitive := cs }] := by
  have hargs' : args.any (fun p => validate_prefix p == false) = false := by
    rw [List.any_eq_false]
    intro p hp
    have := List.all_eq_true.mp hargs p hp
    simp [this]
  refine ⟨?_, ?_, ?_⟩
  · simp [determine_search_configs, hne, hargs']
    exact List.all_eq_true.mp hargs
  · simp [determine_search_configs, new_pattern, hs]
  · simp [determine_search_configs, new_pattern, he]

/-- Witness for C4_position_policy with `--position anywhere`, positional
pattern "xy", start pattern "ab", end pattern "cd". -/
theorem C4_position_policy_witness :
    determine_search_configs none none MatchPosition.Anywhere true ["xy".toList] =
      Except.ok (["xy".toList].map (fun pattern =>
        { start_pattern := some (PatternData.new pattern true)
          end_pattern := none
          match_position := MatchPosition.Anywhere
          case_sensitive := true })) ∧
    determine_search_configs (some "ab".toList) none MatchPosition.Anywhere true ["xy".toList] =
      Except.ok [{ start_pattern := some (PatternData.new "ab".toList true)
                   end_pattern := none
                   match_position := MatchPosition.StartOnly
                   case_sensitive := true }] ∧
    determine_search_configs none (some "cd".toList) MatchPosition.Anywhere true ["xy".toList] =
      Except.ok [{ start_pattern := none
                   end_pattern := some (PatternData.new "cd".toList true)
                   match_position := MatchPosition.EndOnly
                   case_sensitive := true }] :=
  C4_position_policy MatchPosition.Anywhere true ["xy".toList] "ab".toList "cd".toList
    (by decide) (by decide) (by decide) (by decide)

/-- C5 -- Under StartOrEnd the prefix test runs first and the suffix test is
consulted only when it fails (in which case StartOrEnd agrees with the
EndOnly evaluation, labelled "end"); and whenever the comparison address
starts with the pattern, StartOnly and StartOrEnd both report the side
"start" and a matched substring equal to the first `len(p)` characters of
the original address, casing preserved. -/
theorem C5_start_or_end_order_and_casing (address raw : List Char) (cs : Bool) :
    ((PatternData.new raw cs).compare_pattern.isPrefixOf (to_compare address cs) = true →
      check_address_single_pattern address (PatternData.new raw cs)
          MatchPosition.StartOnly cs =
        some ("start".toList, address.take raw.length) ∧
      check_address_single_pattern address (PatternData.new raw cs)
          MatchPosition.StartOrEnd cs =
        some ("start".toList, address.take raw.length)) ∧
    ((PatternData.new raw cs).compare_pattern.isPrefixOf (to_compare address cs) = false →
      check_address_single_pattern address (PatternData.new raw cs)
          MatchPosition.StartOrEnd cs =
        check_address_single_pattern address (PatternData.new raw cs)
          MatchPosition.EndOnly cs) := by
  constructor
  · intro h
    constructor <;> simp [check_address_single_pattern, h, new_length]
  · intro h
    simp [check_address_single_pattern, h]

/-- Witness for C5_start_or_end_order_and_casing at address "Seek777" and
pattern "Seek" (case-sensitive): both StartOnly and StartOrEnd report side
"start" with matched substring "Seek". -/
theorem C5_start_or_end_witness :
    check_address_single_pattern "Seek777".toList (PatternData.new "Seek".toList true)
        MatchPosition.StartOnly true =
      some ("start".toList, "Seek".toList) ∧
    check_address_single_pattern "Seek777".toList (PatternData.new "Seek".toList true)
        MatchPosition.StartOrEnd true =
      some ("start".toList, "Seek".toList) :=
  (C5_start_or_end_order_and_casing "Seek777".toList "Seek".toList true).1 (by decide)

/-- C6 -- Under Anywhere, if the pattern occurs in the comparison address at
index `i` and at no smaller index, the evaluation reports exactly that index
and the matched substring taken from the original-case address. -/
theorem C6_anywhere_first_occurrence (address raw : List Char) (cs : Bool) (i : Nat)
    (hocc : (PatternData.new raw cs).compare_pattern.isPrefixOf
      ((to_compare address cs).drop i) = true)
    (hmin : ∀ j, j < i → (PatternData.new raw cs).compare_pattern.isPrefixOf
      ((to_compare address cs).drop j) = false) :
    check_address_single_pattern address (PatternData.new raw cs)
        MatchPosition.Anywhere cs =
      some ("index ".toList ++ (Nat.repr i).toList, (address.drop i).take raw.length) := by
  have hfind := strFind_eq_some_of hocc hmin
  simp [check_address_single_pattern, hfind, new_length]

/-- Witness for C6_anywhere_first_occurrence: pattern "xyz" against address
"12xyzAB" reports index 2 and matched substring "xyz". -/
theorem C6_anywhere_witness :
    check_address_single_pattern "12xyzAB".toList (PatternData.new "xyz".toList true)
        MatchPosition.Anywhere true =
      some ("index 2".toList, "xyz".toList) :=
  C6_anywhere_first_occurrence "12xyzAB".toList "xyz".toList true 2
    (by decide) (by decide)

/-- C7 -- With case_sensitive = false, matching compares the lowercased
address against the lowercased pattern; when the lowercased address starts
with the lowercased pattern, StartOnly and StartOrEnd both match and report
the first `len(p)` characters of the address in its original casing. -/
theorem C7_case_insensitive_match (address raw : List Char)
    (h : (raw.map Char.toLower).isPrefixOf (address.map Char.toLower) = true) :
    check_address_single_pattern address (PatternData.new raw false)
        MatchPosition.StartOnly false =
      some ("start".toList, address.take raw.length) ∧
    check_address_single_pattern address (PatternData.new raw false)
        MatchPosition.StartOrEnd false =
      some ("start".toList, address.take raw.length) := by
  have h2 : (PatternData.new raw false).compare_pattern.isPrefixOf
      (to_compare address false) = true := by
    simpa [PatternData.new, to_compare] using h
  constructor <;> simp [check_address_single_pattern, h2, new_length]

/-- Witness for C7_case_insensitive_match: pattern "ab" with
case_sensitive = false matches address "AB1234mn"; the reported substring is
"AB" in the original casing of the address. -/
theorem C7_case_insensitive_witness :
    check_address_single_pattern "AB1234mn".toList (PatternData.new "ab".toList false)
        MatchPosition.StartOnly false =
      some ("start".toList, "AB".toList) ∧
    check_address_single_pattern "AB1234mn".toList (PatternData.new "ab".toList false)
        MatchPosition.StartOrEnd false =
      some ("start".toList, "AB".toList) :=
  C7_case_insensitive_match "AB1234mn".toList "ab".toList (by decide)

/-- C8 -- When mnemonic derivation fails, the commit path of the worker
substitutes the fixed placeholder "Unable to generate mnemonic" for the
mnemonic field, does not abort (the result record is still produced), and
every other field of the record (pattern description, position, matched
substring, address, encoded secret) is produced as on success. -/
theorem C8_mnemonic_failure_placeholder (pubkey private_key : List Char)
    (config : SearchConfig) (err : String) (position actual_match : List Char)
    (h : check_address_with_config pubkey config = some (position, actual_match)) :
    worker_commit pubkey config private_key (Except.error err) =
      some { matched_pattern := pattern_desc config
             position := position
             actual_match := actual_match
             pubkey := pubkey
             private_key := private_key
             mnemonic := mnemonic_placeholder } := by
  simp [worker_commit, h, mnemonic_or_placeholder]

/-- Witness for C8_mnemonic_failure_placeholder: address "Seek12" against the
pattern "Seek" at the start, with a failing derivation. -/
theorem C8_mnemonic_failure_witness :
    worker_commit "Seek12".toList
      { start_pattern := some (PatternData.new "Seek".toList true)
        end_pattern := none
        match_position := MatchPosition.StartOnly
        case_sensitive := true }
      "sk".toList (Except.error "bad entropy") =
      some { matched_pattern := pattern_desc
               { start_pattern := some (PatternData.new "Seek".toList true)
                 end_pattern := none
                 match_position := MatchPosition.StartOnly
                 case_sensitive := true }
             position := "start".toList
             actual_match := "Seek".toList
             pubkey := "Seek12".toList
             private_key := "sk".toList
             mnemonic := mnemonic_placeholder } :=
  C8_mnemonic_failure_placeholder "Seek12".toList "sk".toList
    { start_pattern := some (PatternData.new "Seek".toList true)
      end_pattern := none
      match_position := MatchPosition.StartOnly
      case_sensitive := true }
    "bad entropy" "start".toList "Seek".toList (by decide)

/-- C9 -- The empty pattern passes validation, and under StartOnly, EndOnly,
StartOrEnd and Anywhere it matches every address with an empty matched
substring; Anywhere reports index 0. -/
theorem C9_empty_pattern_matches (address : List Char) (cs : Bool) :
    validate_prefix [] = true ∧
    check_address_single_pattern address (PatternData.new [] cs)
        MatchPosition.StartOnly cs =
      some ("start".toList, []) ∧
    check_address_single_pattern address (PatternData.new [] cs)
        MatchPosition.EndOnly cs =
      some ("end".toList, []) ∧
    check_address_single_pattern address (PatternData.new [] cs)
        MatchPosition.StartOrEnd cs =
      some ("start".toList, []) ∧
    check_address_single_pattern address (PatternData.new [] cs)
        MatchPosition.Anywhere cs =
      some ("index 0".toList, []) := by
  have hcmp : (PatternData.new [] cs).compare_pattern = [] := by
    simp [PatternData.new]
  refine ⟨by decide, ?_, ?_, ?_, ?_⟩
  · simp [check_address_single_pattern, hcmp, new_length, List.isPrefixOf]
  · simp [check_address_single_pattern, hcmp, new_length]
  · simp [check_address_single_pattern, hcmp, new_length, List.isPrefixOf]
  · simp [check_address_single_pattern, hcmp, new_length, strFind_nil_pattern]
    decide

/-- C10 -- For ASCII addresses and configurations whose pattern texts are
ASCII (modelled as character lists; every pattern in the program is built by
`PatternData.new`), evaluation is total: the checked evaluation, in which
every Rust slice and `usize` subtraction errors instead of panicking when out
of bounds, returns `Except.ok` of the plain evaluation for every match
position, so evaluation always returns Some or None without panicking. -/
theorem C10_evaluation_total (address : List Char) (sr er : Option (List Char))
    (pos : MatchPosition) (cs : Bool)
    (haddr : address.all (fun c => decide (c.toNat < 128)) = true)
    (hsr : sr.all (fun r => r.all (fun c => decide (c.toNat < 128))) = true)
    (her : er.all (fun r => r.all (fun c => decide (c.toNat < 128))) = true) :
    check_address_with_config_checked address
      { start_pattern := sr.map (fun r => PatternData.new r cs)
        end_pattern := er.map (fun r => PatternData.new r cs)
        match_position := pos
        case_sensitive := cs } =
    Except.ok (check_address_with_config address
      { start_pattern := sr.map (fun r => PatternData.new r cs)
        end_pattern := er.map (fun r => PatternData.new r cs)
        match_position := pos
        case_sensitive := cs }) :=
  config_checked_ok address sr er pos cs

/-- Witness for C10_evaluation_total: StartAndEnd on address "Ab9" with
start "A" and end "b9". -/
theorem C10_evaluation_total_witness :
    check_address_with_config_checked "Ab9".toList
      { start_pattern := (some "A".toList).map (fun r => PatternData.new r true)
        end_pattern := (some "b9".toList).map (fun r => PatternData.new r true)
        match_position := MatchPosition.StartAndEnd
        case_sensitive := true } =
    Except.ok (check_address_with_config "Ab9".toList
      { start_pattern := (some "A".toList).map (fun r => PatternData.new r true)
        end_pattern := (some "b9".toList).map (fun r => PatternData.new r true)
        match_position := MatchPosition.StartAndEnd
        case_sensitive := true }) :=
  C10_evaluation_total "Ab9".toList (some "A".toList) (some "b9".toList)
    MatchPosition.StartAndEnd true (by decide) (by decide) (by decide)
